import Mathlib

/-!
Verification of the signal-generation and backtesting core of the
Quant-oracle repository against its natural-language specification.

The embedding translates, from `src/backend/oracle.py`, `src/backend/backtest.py`
and `src/backend/config.py`:

* `calculate_vwap_and_deviation` — rolling VWAP equilibrium, deviation, rolling
  sample standard deviation, standardized deviation E (columns modelled as
  `Option`-valued where the pandas column can hold NaN, plain values where the
  source guarantees a number);
* `calculate_fft_phase` — rolling DFT, dominant bin, phase normalization and
  time-to-reversal (over real and complex numbers);
* `generate_signals_rolling` — per-bar signal, direction and confidence;
* `simulate_trades` — the bar-by-bar trade simulator state machine and the
  derived trade statistics (profit factor);
* `validate_config` — configuration validation.

Numbers that the source holds as Python floats are modelled as exact rationals
(or reals where square roots / transcendental functions occur); NaN cells of a
pandas column are modelled as `none`.
-/

namespace QuantOracle

/-- One OHLCV bar of the input series (the columns the core reads). -/
structure Bar where
  high : ℚ
  low : ℚ
  close : ℚ
  volume : ℚ
deriving DecidableEq

/-- Default bar used for out-of-range list access (never reached in the theorems,
which carry explicit bounds). -/
def defBar : Bar := ⟨0, 0, 0, 0⟩

/-- The trailing window of exactly `W` entries of `xs` ending at index `i`
(pandas `rolling(window=W)` at row `i`, when `W ≤ i+1`). -/
def windowAt (xs : List ℚ) (W i : ℕ) : List ℚ :=
  (xs.take (i + 1)).drop (i + 1 - W)

/-- Rolling sum with window `W` at row `i`: `NaN` (here `none`) until `W` rows
have elapsed, the sum of the trailing `W` entries afterwards
(`Series.rolling(window=W).sum()`). -/
def rollSum (xs : List ℚ) (W i : ℕ) : Option ℚ :=
  if W ≤ i + 1 then some (windowAt xs W i).sum else none

/-- Typical price of a bar: `(high + low + close) / 3` (column `TP`). -/
def tp (b : Bar) : ℚ := (b.high + b.low + b.close) / 3

/-- Column `TP_Vol`: typical price times volume. -/
def tpVol (b : Bar) : ℚ := tp b * b.volume

/-- Column `Cum_TP_Vol`: rolling sum of `TP_Vol` over the vwap window. -/
def cumTPVol (bars : List Bar) (W i : ℕ) : Option ℚ :=
  rollSum (bars.map tpVol) W i

/-- Column `Cum_Volume`: rolling sum of `volume` over the vwap window. -/
def cumVolume (bars : List Bar) (W i : ℕ) : Option ℚ :=
  rollSum (bars.map (·.volume)) W i

/-- Close price at row `i`. -/
def closeAt (bars : List Bar) (i : ℕ) : ℚ := (bars.getD i defBar).close

/-- Column `Z_prime` (the equilibrium): `np.where(Cum_Volume > 0,
Cum_TP_Vol / Cum_Volume, close)`.  A NaN rolling sum fails the `> 0` test, so
during warm-up the `np.where` also selects the close price; the column never
holds NaN. -/
def zPrime (bars : List Bar) (W i : ℕ) : ℚ :=
  match cumTPVol bars W i, cumVolume bars W i with
  | some tpv, some v => if 0 < v then tpv / v else closeAt bars i
  | _, _ => closeAt bars i

/-- Column `Deviation`: `close - Z_prime`. -/
def deviation (bars : List Bar) (W i : ℕ) : ℚ :=
  closeAt bars i - zPrime bars W i

/-- The full `Deviation` column as a list. -/
def deviationCol (bars : List Bar) (W : ℕ) : List ℚ :=
  (List.range bars.length).map (deviation bars W)

/-- Sample variance (`ddof = 1`, as pandas `std` uses) of a list of rationals. -/
def sampleVar (xs : List ℚ) : ℚ :=
  ((xs.map (fun x => (x - xs.sum / xs.length) ^ 2)).sum) / ((xs.length : ℚ) - 1)

/-- Column `Sigma`: rolling sample standard deviation of `Deviation` over the
vwap window (`rolling(window=W).std()`).  NaN (`none`) until `W` rows have
elapsed; pandas also returns NaN when the window holds at most one observation
(`ddof = 1`), hence the `2 ≤ W` guard. -/
noncomputable def sigmaCol (bars : List Bar) (W i : ℕ) : Option ℝ :=
  if 2 ≤ W ∧ W ≤ i + 1 then
    some (Real.sqrt (sampleVar (windowAt (deviationCol bars W) W i)))
  else none

/-- The `epsilon = 1e-10` guard of `calculate_vwap_and_deviation`. -/
def epsQ : ℚ := 1 / 10 ^ 10

/-- Column `E` (deviation_z): `np.where(Sigma > epsilon, Deviation / Sigma, 0.0)`.
A NaN `Sigma` fails the `> epsilon` test, so the column never holds NaN. -/
noncomputable def Erow (bars : List Bar) (W i : ℕ) : ℝ :=
  match sigmaCol bars W i with
  | some s => if (epsQ : ℝ) < s then (deviation bars W i : ℝ) / s else 0
  | none => 0

/-! Rolling FFT phase estimator, from `calculate_fft_phase` in
`src/backend/oracle.py`.  The window of closes is detrended (mean removed), its
discrete Fourier transform is taken (`scipy.fft.fft` convention,
`X_k = sum_n x_n exp(-2 pi I k n / N)`), the positive-frequency half-spectrum
magnitudes are scanned (DC bin excluded) for the dominant bin, and phase /
time-to-reversal are derived from the complex coefficient at that bin. -/

/-- Detrended series: `series - np.mean(series)`. -/
def detrend (xs : List ℚ) : List ℚ := xs.map (fun x => x - xs.sum / xs.length)

/-- The discrete Fourier transform coefficient at bin `k` of a rational series
(`scipy.fft.fft` sign convention). -/
noncomputable def dft (xs : List ℚ) (k : ℕ) : ℂ :=
  ∑ n ∈ Finset.range xs.length,
    ((xs.getD n 0 : ℚ) : ℂ) *
      Complex.exp (-(2 * (Real.pi : ℂ) * Complex.I) * (k : ℂ) * (n : ℂ) / (xs.length : ℂ))

/-- `scipy.fft.fftfreq(N, 1.0)[k]` for `k < N // 2`: the frequency `k / N`. -/
def xfreq (N k : ℕ) : ℚ := (k : ℚ) / (N : ℚ)

/-- The half-spectrum magnitude list `2/N * np.abs(yf[0 : N // 2])` of the
detrended window. -/
noncomputable def magsList (xs : List ℚ) : List ℝ :=
  (List.range (xs.length / 2)).map
    (fun k => 2 / (xs.length : ℝ) * Complex.abs (dft (detrend xs) k))

/-- Index of the first maximal entry of a list of reals (`np.argmax`; 0 on the
empty list, matching numpy only on nonempty input, which the caller guards). -/
noncomputable def argmaxIdx : List ℝ → ℕ
  | [] => 0
  | [_] => 0
  | x :: y :: rest =>
    if x < (y :: rest).getD (argmaxIdx (y :: rest)) 0 then argmaxIdx (y :: rest) + 1
    else 0

/-- `dominant_idx = np.argmax(magnitudes[1:]) + 1`. -/
noncomputable def dominantIdx (series : List ℚ) : ℕ :=
  argmaxIdx ((magsList series).drop 1) + 1

/-- The spectral per-bar output columns (`Dominant_Period`, `Phase_Rad` — which
the source stores already normalized —, `T_reversal`, `Dominant_Freq`,
`Spectral_Power`). -/
structure FftRow where
  dominantPeriod : ℚ
  phaseRad : ℝ
  tReversal : ℝ
  dominantFreq : ℚ
  spectralPower : ℝ

/-- Python float modulus for a positive divisor: `x % y = x - y * floor(x / y)`. -/
noncomputable def pmod (x y : ℝ) : ℝ := x - y * ⌊x / y⌋

/-- One iteration of the rolling FFT loop body on a window of closes: `none`
exactly where the source executes `continue` (empty half-spectrum tail, or a
dominant bin of zero frequency). -/
noncomputable def fftStep (series : List ℚ) : Option FftRow :=
  if ((magsList series).drop 1).length = 0 then none
  else if dominantIdx series = 0 ∨ xfreq series.length (dominantIdx series) = 0 then
    none
  else
    some
      { dominantPeriod := 1 / xfreq series.length (dominantIdx series)
        phaseRad :=
          pmod (Complex.arg (dft (detrend series) (dominantIdx series)) + 2 * Real.pi)
            (2 * Real.pi)
        tReversal :=
          (1 -
              pmod (Complex.arg (dft (detrend series) (dominantIdx series)) +
                  2 * Real.pi) (2 * Real.pi) /
                (2 * Real.pi)) *
            ((1 / xfreq series.length (dominantIdx series) : ℚ) : ℝ)
        dominantFreq := xfreq series.length (dominantIdx series)
        spectralPower := (magsList series).getD (dominantIdx series) 0 }

/-- The spectral columns at row `i` for fft window `P`: `none` while the whole
series is shorter than `P` (the early-return branch), `none` for the first
`P - 1` rows, and otherwise the result of the loop body on the trailing window
of `P` closes (rows written at `df.iloc[i_src - 1]` for `i_src` in
`range(P, len + 1)`). -/
noncomputable def fftFields (closes : List ℚ) (P i : ℕ) : Option FftRow :=
  if closes.length < P then none
  else if i + 1 < P ∨ closes.length ≤ i then none
  else fftStep (windowAt closes P i)

/-- Input series for the C4 witness (window is already mean-free). -/
def c4Closes : List ℚ := [0, 1, 0, -1]

/-- Input series for the C1 witness: two bars with positive volume. -/
def c1Bars : List Bar := [⟨12, 8, 10, 2⟩, ⟨16, 10, 13, 6⟩]

/-- Input series for the C3 counterexample: a single bar, inspected with a
vwap window of 3 (so bar 0 is a warm-up bar). -/
def c3Bars : List Bar := [⟨10, 10, 10, 5⟩]

/-- Constant-price two-bar series (all prices 10, volume 5), used for the C3
and C5 witnesses. -/
def c5Bars : List Bar := [⟨10, 10, 10, 5⟩, ⟨10, 10, 10, 5⟩]

/-! Signal generation, from `generate_signals_rolling` in
`src/backend/oracle.py`.  The function reads the indicator columns row by row;
rows where `E`, `T_reversal` or `Dominant_Period` is NaN are skipped and keep
the initialized column defaults (`HOLD`, `N/A`, `N/A`, `False`, `False`), while
`Volume_Ratio` is computed vectorized for all rows beforehand. -/

/-- The indicator columns of one row as `generate_signals_rolling` reads them
(NaN modelled as `none`). -/
structure SigRow where
  E : Option ℚ
  tReversal : Option ℚ
  dominantPeriod : Option ℚ
  volume : ℚ
deriving DecidableEq

/-- Default row for out-of-range access. -/
def dfltSigRow : SigRow := ⟨none, none, none, 0⟩

/-- The signal columns of one output row. -/
structure SigOut where
  signal : String
  direction : String
  confidence : String
  deviationSignal : Bool
  timingSignal : Bool
  volumeRatio : Option ℚ
deriving DecidableEq

/-- The initialized column defaults (`Signal = HOLD`, `Direction = N/A`,
`Confidence = N/A`, both boolean flags `False`), kept by skipped rows. -/
def dfltSigOut : SigOut := ⟨"HOLD", "N/A", "N/A", false, false, none⟩

/-- Column `Volume_Ratio = volume / volume.rolling(vwap_period).mean()`.
The rolling mean is the rolling sum divided by the window length; it is NaN
(`none`) during warm-up.  Under the Bar invariant `volume ≥ 0`, a zero rolling
mean forces the current volume (a window member) to be zero, and pandas `0/0`
is NaN — hence `none` on a zero mean.  (Negative volumes, outside the data
model, would make pandas produce an infinity here instead.) -/
def volumeRatioCol (vols : List ℚ) (p i : ℕ) : Option ℚ :=
  match rollSum vols p i with
  | some s => if s / (p : ℚ) = 0 then none else some (vols.getD i 0 / (s / (p : ℚ)))
  | none => none

/-- The loop body of `generate_signals_rolling` for a row whose `E`,
`T_reversal` and `Dominant_Period` are all numbers. -/
def perBarSignal (e t d : ℚ) (vr : Option ℚ) (sigmaThr revFrac : ℚ) : SigOut :=
  { signal :=
      if sigmaThr < |e| ∧ t < d * revFrac then
        if e < 0 then "BUY" else if 0 < e then "SELL" else "HOLD"
      else "HOLD"
    direction :=
      if sigmaThr < |e| ∧ t < d * revFrac then
        if e < 0 then "Long" else if 0 < e then "Short" else "N/A"
      else "N/A"
    confidence :=
      match vr with
      | some r => if 1 < r then "High" else "Low"
      | none => "N/A"
    deviationSignal := decide (sigmaThr < |e|)
    timingSignal := decide (t < d * revFrac)
    volumeRatio := vr }

/-- `generate_signals_rolling`: one output row per input row; rows with a NaN
among `E`, `T_reversal`, `Dominant_Period` keep the initialized defaults (the
loop `continue`s before assigning signal or confidence). -/
def signalsRolling (rows : List SigRow) (sigmaThr revFrac : ℚ) (vwapP : ℕ) :
    List SigOut :=
  (List.range rows.length).map (fun i =>
    match (rows.getD i dfltSigRow).E, (rows.getD i dfltSigRow).tReversal,
        (rows.getD i dfltSigRow).dominantPeriod with
    | some e, some t, some d =>
        perBarSignal e t d (volumeRatioCol (rows.map (·.volume)) vwapP i) sigmaThr
          revFrac
    | _, _, _ =>
        { dfltSigOut with volumeRatio := volumeRatioCol (rows.map (·.volume)) vwapP i })

/-- The output row of `generate_signals_rolling` at index `i`. -/
def sigOutAt (rows : List SigRow) (sigmaThr revFrac : ℚ) (vwapP i : ℕ) : SigOut :=
  (signalsRolling rows sigmaThr revFrac vwapP).getD i dfltSigOut

/-- Input row for the C2 witness: strong negative deviation, imminent
reversal. -/
def c2Rows : List SigRow := [⟨some (-3), some 1, some 100, 5⟩]

/-- Input row for the C7 counterexample: volume ratio defined (window 1) but
the spectral fields NaN. -/
def c7Rows : List SigRow := [⟨some 0, none, some 4, 10⟩]

/-- Input row for the C7 witness: everything defined, volume ratio exactly 1. -/
def c7wRows : List SigRow := [⟨some 0, some 1, some 4, 10⟩]

/-! Configuration validation, from `validate_config` in
`src/backend/config.py`.  Error messages are modelled as tags. -/

/-- The four error conditions `validate_config` appends, in order. -/
inductive ConfigError where
  | limitTooSmall
  | sigmaNotPositive
  | reversalOutOfRange
  | fftNotPowerOfTwo
deriving DecidableEq

/-- The module-level configuration constants that `validate_config` reads. -/
structure Config where
  LIMIT : ℤ
  VWAP_PERIOD : ℤ
  FFT_PERIOD : ℤ
  SIGMA_THRESHOLD : ℚ
  REVERSAL_THRESHOLD_PERCENT : ℚ

/-- `validate_config`: the list of errors collected; the source raises
`ValueError` exactly when this list is nonempty, and returns `True` otherwise.
The power-of-two test is Python `FFT_PERIOD & (FFT_PERIOD - 1) != 0`
(two-complement bitwise and, `Int.land`). -/
def validateConfig (c : Config) : List ConfigError :=
  (if c.LIMIT < max c.VWAP_PERIOD c.FFT_PERIOD then [ConfigError.limitTooSmall]
    else []) ++
  (if c.SIGMA_THRESHOLD ≤ 0 then [ConfigError.sigmaNotPositive] else []) ++
  (if ¬(0 < c.REVERSAL_THRESHOLD_PERCENT ∧ c.REVERSAL_THRESHOLD_PERCENT < 1) then
    [ConfigError.reversalOutOfRange] else []) ++
  (if Int.land c.FFT_PERIOD (c.FFT_PERIOD - 1) ≠ 0 then [ConfigError.fftNotPowerOfTwo]
    else [])

/-! Trade simulation, from `simulate_trades` in `src/backend/backtest.py`.
One position slot, entries on BUY/SELL from a flat state, four ordered exit
rules, per-bar equity tracking, forced close at end of data, and trade
statistics.  Trades are stored most-recent-first (`cons` on entry, head update
on exit); `completedTrades` reverses back to chronological order. -/

/-- The exit-side fields written into a trade record when it closes. -/
structure TradeExit where
  exitBar : ℕ
  exitPrice : ℚ
  exitFee : ℚ
  exitReason : String
  holdingPeriod : ℕ
  pnl : ℚ
  pnlPct : ℚ
  netPnl : ℚ
  totalFees : ℚ
  exitDev : ℚ
deriving DecidableEq

/-- A trade record: entry fields set on open, exit fields (`none` while the
position is open) set exactly once on close. -/
structure Trade where
  entryBar : ℕ
  entryPrice : ℚ
  position : String
  positionSize : ℚ
  entryFee : ℚ
  confidence : String
  entryDev : ℚ
  exitInfo : Option TradeExit
deriving DecidableEq

/-- Default trade for out-of-range access in concrete statements. -/
def dfltTrade : Trade := ⟨0, 0, "", 0, 0, "", 0, none⟩

/-- The columns of one row that `simulate_trades` reads. -/
structure TradeRow where
  signal : String
  close : ℚ
  confidence : String
  E : ℚ
deriving DecidableEq

/-- Default row for out-of-range access in concrete statements. -/
def dfltTradeRow : TradeRow := ⟨"HOLD", 0, "N/A", 0⟩

/-- The keyword parameters of `simulate_trades`. -/
structure SimParams where
  initialCapital : ℚ
  positionSizePct : ℚ
  stopLossPct : ℚ
  takeProfitPct : ℚ
  feePct : ℚ
  useConfidence : Bool
deriving DecidableEq

/-- The mutable locals of the simulation loop. -/
structure SimState where
  capital : ℚ
  position : Option String
  entryPrice : ℚ
  entryBar : ℕ
  positionSize : ℚ
  trades : List Trade
  equity : List ℚ
deriving DecidableEq

/-- `trades[-1].update(...)` on the most-recent-first trade list. -/
def closeLastTrade (ts : List Trade) (e : TradeExit) : List Trade :=
  match ts with
  | [] => []
  | t :: rest => { t with exitInfo := some e } :: rest

/-- `entry_fee` of `trades[-1]` on the most-recent-first trade list. -/
def lastEntryFee (ts : List Trade) : ℚ :=
  match ts with
  | [] => 0
  | t :: _ => t.entryFee

/-- The ordered exit tests for an open LONG position (stop loss, take profit,
signal reversal, max holding period), returning the first reason that fires. -/
def exitReasonLong (p : SimParams) (st : SimState) (i : ℕ) (row : TradeRow) :
    Option String :=
  if row.close ≤ st.entryPrice * (1 - p.stopLossPct) then some "Stop Loss"
  else if st.entryPrice * (1 + p.takeProfitPct) ≤ row.close then some "Take Profit"
  else if row.signal = "SELL" then some "Signal Reversal"
  else if 100 < i - st.entryBar then some "Max Hold Period"
  else none

/-- The ordered exit tests for an open SHORT position (directions inverted). -/
def exitReasonShort (p : SimParams) (st : SimState) (i : ℕ) (row : TradeRow) :
    Option String :=
  if st.entryPrice * (1 + p.stopLossPct) ≤ row.close then some "Stop Loss"
  else if row.close ≤ st.entryPrice * (1 - p.takeProfitPct) then some "Take Profit"
  else if row.signal = "BUY" then some "Signal Reversal"
  else if 100 < i - st.entryBar then some "Max Hold Period"
  else none

/-- One iteration of the loop of `simulate_trades` at bar `i`.  The leading
confidence-filter test `continue`s the whole iteration (appending the raw
capital to the equity curve) for BUY/SELL rows whose confidence is not High;
otherwise entry logic runs when flat, exit logic when a position is open, and
the equity curve is appended (capital when flat, mark-to-market value when a
position remains open). -/
def stepBar (p : SimParams) (st : SimState) (i : ℕ) (row : TradeRow) : SimState :=
  if p.useConfidence ∧ row.confidence ≠ "High" ∧
      (row.signal = "BUY" ∨ row.signal = "SELL") then
    { st with equity := st.equity ++ [st.capital] }
  else
    match st.position with
    | none =>
      if row.signal = "BUY" ∧ 0 < st.capital then
        { capital :=
            st.capital - (st.capital * p.positionSizePct / row.close * row.close +
              st.capital * p.positionSizePct / row.close * row.close * p.feePct)
          position := some "LONG"
          entryPrice := row.close
          entryBar := i
          positionSize := st.capital * p.positionSizePct / row.close
          trades :=
            { entryBar := i, entryPrice := row.close, position := "LONG",
              positionSize := st.capital * p.positionSizePct / row.close,
              entryFee := st.capital * p.positionSizePct / row.close * row.close *
                p.feePct,
              confidence := row.confidence, entryDev := row.E,
              exitInfo := none } :: st.trades
          equity := st.equity ++
            [st.capital - (st.capital * p.positionSizePct / row.close * row.close +
                st.capital * p.positionSizePct / row.close * row.close * p.feePct) +
              st.capital * p.positionSizePct / row.close * row.close] }
      else if row.signal = "SELL" ∧ 0 < st.capital then
        { capital :=
            st.capital + (st.capital * p.positionSizePct / row.close * row.close -
              st.capital * p.positionSizePct / row.close * row.close * p.feePct)
          position := some "SHORT"
          entryPrice := row.close
          entryBar := i
          positionSize := st.capital * p.positionSizePct / row.close
          trades :=
            { entryBar := i, entryPrice := row.close, position := "SHORT",
              positionSize := st.capital * p.positionSizePct / row.close,
              entryFee := st.capital * p.positionSizePct / row.close * row.close *
                p.feePct,
              confidence := row.confidence, entryDev := row.E,
              exitInfo := none } :: st.trades
          equity := st.equity ++
            [st.capital + (st.capital * p.positionSizePct / row.close * row.close -
                st.capital * p.positionSizePct / row.close * row.close * p.feePct) -
              st.capital * p.positionSizePct / row.close * row.close] }
      else { st with equity := st.equity ++ [st.capital] }
    | some pos =>
      if pos = "LONG" then
        match exitReasonLong p st i row with
        | some reason =>
          { capital := st.capital + (st.positionSize * row.close -
              st.positionSize * row.close * p.feePct)
            position := none
            entryPrice := st.entryPrice
            entryBar := st.entryBar
            positionSize := 0
            trades := closeLastTrade st.trades
              { exitBar := i, exitPrice := row.close,
                exitFee := st.positionSize * row.close * p.feePct,
                exitReason := reason, holdingPeriod := i - st.entryBar,
                pnl := st.positionSize * row.close - st.positionSize * st.entryPrice,
                pnlPct := (row.close / st.entryPrice - 1) * 100,
                netPnl := st.positionSize * row.close -
                  st.positionSize * st.entryPrice -
                  (lastEntryFee st.trades + st.positionSize * row.close * p.feePct),
                totalFees := lastEntryFee st.trades +
                  st.positionSize * row.close * p.feePct,
                exitDev := row.E }
            equity := st.equity ++
              [st.capital + (st.positionSize * row.close -
                  st.positionSize * row.close * p.feePct)] }
        | none =>
          { st with equity := st.equity ++ [st.capital + st.positionSize * row.close] }
      else if pos = "SHORT" then
        match exitReasonShort p st i row with
        | some reason =>
          { capital := st.capital - (st.positionSize * row.close +
              st.positionSize * row.close * p.feePct)
            position := none
            entryPrice := st.entryPrice
            entryBar := st.entryBar
            positionSize := 0
            trades := closeLastTrade st.trades
              { exitBar := i, exitPrice := row.close,
                exitFee := st.positionSize * row.close * p.feePct,
                exitReason := reason, holdingPeriod := i - st.entryBar,
                pnl := st.positionSize * st.entryPrice - st.positionSize * row.close,
                pnlPct := (st.entryPrice / row.close - 1) * 100,
                netPnl := st.positionSize * st.entryPrice -
                  st.positionSize * row.close -
                  (lastEntryFee st.trades + st.positionSize * row.close * p.feePct),
                totalFees := lastEntryFee st.trades +
                  st.positionSize * row.close * p.feePct,
                exitDev := row.E }
            equity := st.equity ++
              [st.capital - (st.positionSize * row.close +
                  st.positionSize * row.close * p.feePct)] }
        | none =>
          { st with equity := st.equity ++ [st.capital - st.positionSize * row.close] }
      else
        { st with equity := st.equity ++ [st.capital - st.positionSize * row.close] }

/-- The initial loop state (`capital = initial_capital`, flat, and the equity
curve seeded with `[initial_capital]`). -/
def initState (p : SimParams) : SimState :=
  { capital := p.initialCapital, position := none, entryPrice := 0, entryBar := 0,
    positionSize := 0, trades := [], equity := [p.initialCapital] }

/-- The simulation loop (`for i, row in enumerate(df.iterrows())`). -/
def runBarsAux (p : SimParams) : ℕ → List TradeRow → SimState → SimState
  | _, [], st => st
  | i, row :: rest, st => runBarsAux p (i + 1) rest (stepBar p st i row)

/-- The post-loop forced close of a remaining open position at the last close
price (reason `End of Data`; the source overwrites the `pnl` field with the
net value here, and does not append to the equity curve). -/
def forceClose (p : SimParams) (rows : List TradeRow) (st : SimState) : SimState :=
  match st.position with
  | none => st
  | some pos =>
    if pos = "LONG" then
      { st with
        capital := st.capital +
          (st.positionSize * ((rows.getLast?.map (·.close)).getD 0) -
            st.positionSize * ((rows.getLast?.map (·.close)).getD 0) * p.feePct)
        trades := closeLastTrade st.trades
          { exitBar := rows.length - 1
            exitPrice := (rows.getLast?.map (·.close)).getD 0
            exitFee := st.positionSize * ((rows.getLast?.map (·.close)).getD 0) *
              p.feePct
            exitReason := "End of Data"
            holdingPeriod := rows.length - 1 - st.entryBar
            pnl := st.positionSize * ((rows.getLast?.map (·.close)).getD 0) -
              st.positionSize * st.entryPrice -
              (lastEntryFee st.trades +
                st.positionSize * ((rows.getLast?.map (·.close)).getD 0) * p.feePct)
            pnlPct := (((rows.getLast?.map (·.close)).getD 0) / st.entryPrice - 1) * 100
            netPnl := st.positionSize * ((rows.getLast?.map (·.close)).getD 0) -
              st.positionSize * st.entryPrice -
              (lastEntryFee st.trades +
                st.positionSize * ((rows.getLast?.map (·.close)).getD 0) * p.feePct)
            totalFees := lastEntryFee st.trades +
              st.positionSize * ((rows.getLast?.map (·.close)).getD 0) * p.feePct
            exitDev := (rows.getLast?.map (·.E)).getD 0 } }
    else
      { st with
        capital := st.capital -
          (st.positionSize * ((rows.getLast?.map (·.close)).getD 0) +
            st.positionSize * ((rows.getLast?.map (·.close)).getD 0) * p.feePct)
        trades := closeLastTrade st.trades
          { exitBar := rows.length - 1
            exitPrice := (rows.getLast?.map (·.close)).getD 0
            exitFee := st.positionSize * ((rows.getLast?.map (·.close)).getD 0) *
              p.feePct
            exitReason := "End of Data"
            holdingPeriod := rows.length - 1 - st.entryBar
            pnl := st.positionSize * st.entryPrice -
              st.positionSize * ((rows.getLast?.map (·.close)).getD 0) -
              (lastEntryFee st.trades +
                st.positionSize * ((rows.getLast?.map (·.close)).getD 0) * p.feePct)
            pnlPct := (st.entryPrice / ((rows.getLast?.map (·.close)).getD 0) - 1) * 100
            netPnl := st.positionSize * st.entryPrice -
              st.positionSize * ((rows.getLast?.map (·.close)).getD 0) -
              (lastEntryFee st.trades +
                st.positionSize * ((rows.getLast?.map (·.close)).getD 0) * p.feePct)
            totalFees := lastEntryFee st.trades +
              st.positionSize * ((rows.getLast?.map (·.close)).getD 0) * p.feePct
            exitDev := (rows.getLast?.map (·.E)).getD 0 } }

/-- `simulate_trades`: run the loop over all rows, then force-close. -/
def simulateTrades (rows : List TradeRow) (p : SimParams) : SimState :=
  forceClose p rows (runBarsAux p 0 rows (initState p))

/-- `completed_trades`: the trades holding exit fields, in chronological
order. -/
def completedTrades (st : SimState) : List Trade :=
  st.trades.reverse.filter (fun t => t.exitInfo.isSome)

/-- The `net_pnl` of a trade record (0 if still open; only applied to
completed trades). -/
def netPnlOf (t : Trade) : ℚ :=
  match t.exitInfo with
  | some e => e.netPnl
  | none => 0

/-- `winning_trades`: completed trades with positive net P&L. -/
def winningTrades (st : SimState) : List Trade :=
  (completedTrades st).filter (fun t => 0 < netPnlOf t)

/-- `losing_trades`: completed trades with net P&L at most 0. -/
def losingTrades (st : SimState) : List Trade :=
  (completedTrades st).filter (fun t => netPnlOf t ≤ 0)

/-- The `profit_factor` entry of the results dictionary:
`abs(sum(wins) / sum(losses))` when there is a losing trade and the losing sum
is nonzero, else Python float infinity (modelled as `none`). -/
def profitFactor (st : SimState) : Option ℚ :=
  if losingTrades st ≠ [] ∧ ((losingTrades st).map netPnlOf).sum ≠ 0 then
    some |((winningTrades st).map netPnlOf).sum /
      ((losingTrades st).map netPnlOf).sum|
  else none

/-- The default parameters of `simulate_trades` (fee 0.1%, confidence filter
on). -/
def simParams : SimParams := ⟨10000, 95 / 100, 2 / 100, 5 / 100, 1 / 1000, true⟩

/-- Parameters with zero fee (used by the C9 runs to realize break-even and
pure-loss trades). -/
def c9Params : SimParams := ⟨10000, 95 / 100, 2 / 100, 5 / 100, 0, true⟩

/-- C6 counterexample series: a High-confidence BUY opens a long at 100; the
next bar breaches the 2% stop (close 90) but carries a Low-confidence SELL
signal; the final bar is back at 100 with no signal. -/
def c6Rows : List TradeRow :=
  [⟨"BUY", 100, "High", 0⟩, ⟨"SELL", 90, "Low", 0⟩, ⟨"HOLD", 100, "High", 0⟩]

/-- A concrete open-long state for the C6 witness. -/
def c6State : SimState := ⟨100, some "LONG", 100, 0, 1, [], [100]⟩

/-- All-HOLD series for the C8 witness. -/
def c8Rows : List TradeRow := [⟨"HOLD", 5, "Low", 0⟩, ⟨"HOLD", 7, "High", 1⟩]

/-- C9 counterexample series: one break-even round trip (entry and reversal
exit both at 100, zero fee), producing a single completed trade with net P&L
exactly 0. -/
def c9Rows : List TradeRow := [⟨"BUY", 100, "High", -3⟩, ⟨"SELL", 100, "High", 3⟩]

/-- C9 witness series: one losing round trip (entry 100, reversal exit 99,
zero fee). -/
def c9wRows : List TradeRow := [⟨"BUY", 100, "High", -3⟩, ⟨"SELL", 99, "High", 3⟩]

end QuantOracle

namespace QuantOracle

/-- Basic window-length fact used throughout: a full trailing window has
exactly `W` entries. -/
theorem windowAt_length (xs : List ℚ) (W i : ℕ) (h1 : W ≤ i + 1)
    (h2 : i < xs.length) : (windowAt xs W i).length = W := by
  simp only [windowAt, List.length_drop, List.length_take]
  omega

/-- C1: for every bar with a full vwap window, the equilibrium equals the
volume-weighted average of typical price over the trailing `W` bars whenever
the rolling volume sum is positive, and falls back to the close price when the
rolling volume sum is zero. -/
theorem c1_equilibrium_vwap (bars : List Bar) (W i : ℕ) (hW : 1 ≤ W)
    (hi : W ≤ i + 1) :
    (0 < (windowAt (bars.map (·.volume)) W i).sum →
      zPrime bars W i =
        (windowAt (bars.map tpVol) W i).sum /
          (windowAt (bars.map (·.volume)) W i).sum) ∧
    ((windowAt (bars.map (·.volume)) W i).sum = 0 →
      zPrime bars W i = closeAt bars i) := by
  constructor
  · intro hpos
    simp [zPrime, cumTPVol, cumVolume, rollSum, if_pos hi, hpos]
  · intro hzero
    simp [zPrime, cumTPVol, cumVolume, rollSum, if_pos hi, hzero]

/-- Witness for C1 at a concrete two-bar series with window 2: the rolling
volume sum is positive and the equilibrium is the volume-weighted typical
price; on a zero-volume window the fallback clause also fires (second
conjunct exercised on a zero-volume series). -/
theorem c1_equilibrium_vwap_witness :
    (0 < (windowAt (c1Bars.map (·.volume)) 2 1).sum ∧
      zPrime c1Bars 2 1 =
        (windowAt (c1Bars.map tpVol) 2 1).sum /
          (windowAt (c1Bars.map (·.volume)) 2 1).sum) ∧
    ((windowAt ([(⟨12, 8, 10, 0⟩ : Bar)].map (·.volume)) 1 0).sum = 0 ∧
      zPrime [(⟨12, 8, 10, 0⟩ : Bar)] 1 0 = closeAt [⟨12, 8, 10, 0⟩] 0) :=
  ⟨⟨by norm_num [c1Bars, windowAt],
      (c1_equilibrium_vwap c1Bars 2 1 (by norm_num) (by norm_num)).1
        (by norm_num [c1Bars, windowAt])⟩,
    ⟨by norm_num [windowAt],
      (c1_equilibrium_vwap [⟨12, 8, 10, 0⟩] 1 0 (by norm_num) (by norm_num)).2
        (by norm_num [windowAt])⟩⟩

/-- Python float modulus by a positive divisor is nonnegative. -/
theorem pmod_nonneg (x y : ℝ) (hy : 0 < y) : 0 ≤ pmod x y := by
  have h1 : (⌊x / y⌋ : ℝ) ≤ x / y := Int.floor_le _
  have h3 : y * (⌊x / y⌋ : ℝ) ≤ y * (x / y) := mul_le_mul_of_nonneg_left h1 hy.le
  have h4 : y * (x / y) = x := by
    rw [mul_comm]; exact div_mul_cancel₀ x hy.ne'
  unfold pmod; linarith

/-- Python float modulus by a positive divisor is below the divisor. -/
theorem pmod_lt (x y : ℝ) (hy : 0 < y) : pmod x y < y := by
  have h1 : x / y < (⌊x / y⌋ : ℝ) + 1 := Int.lt_floor_add_one _
  have h3 : y * (x / y) < y * ((⌊x / y⌋ : ℝ) + 1) := by
    exact mul_lt_mul_of_pos_left h1 hy
  have h4 : y * (x / y) = x := by
    rw [mul_comm]; exact div_mul_cancel₀ x hy.ne'
  unfold pmod; nlinarith

/-- The half-spectrum holds `N // 2` magnitudes. -/
theorem magsList_length (xs : List ℚ) : (magsList xs).length = xs.length / 2 := by
  simp [magsList]

/-- On a window of at least four closes the loop body always assigns a row:
the half-spectrum tail is nonempty and the dominant bin, whose index is at
least 1, has nonzero frequency. -/
theorem fftStep_isSome (w : List ℚ) (h4 : 4 ≤ w.length) :
    ∃ r, fftStep w = some r := by
  have hm : (magsList w).length = w.length / 2 := magsList_length w
  have hlen : ¬((magsList w).drop 1).length = 0 := by
    simp only [List.length_drop, hm]; omega
  have hdi : dominantIdx w ≠ 0 := by simp [dominantIdx]
  have hxf : xfreq w.length (dominantIdx w) ≠ 0 := by
    have hN : (0 : ℚ) < (w.length : ℚ) := by exact_mod_cast by omega
    have hk : (0 : ℚ) < (dominantIdx w : ℚ) := by
      exact_mod_cast Nat.pos_of_ne_zero hdi
    exact ne_of_gt (div_pos hk hN)
  unfold fftStep
  rw [if_neg hlen, if_neg (by push_neg; exact ⟨hdi, hxf⟩)]
  exact ⟨_, rfl⟩

/-- For `P ≥ 4`, every row `i ≥ P - 1` of a series of at least `P` closes gets
spectral fields. -/
theorem fftFields_defined (closes : List ℚ) (P i : ℕ) (h4 : 4 ≤ P)
    (hPi : P ≤ i + 1) (hi : i < closes.length) :
    ∃ r, fftFields closes P i = some r := by
  have hw : (windowAt closes P i).length = P := windowAt_length closes P i hPi hi
  have hs := fftStep_isSome (windowAt closes P i) (by omega)
  unfold fftFields
  rw [if_neg (by omega), if_neg (by push_neg; omega)]
  exact hs

/-- C4: wherever the spectral fields are assigned, the stored phase is the
`atan2`-argument of the DFT coefficient at the dominant bin, shifted by two pi
and reduced modulo two pi — hence it lies in `[0, 2 pi)` — the time to
reversal is `(1 - phase / (2 pi)) * dominant_period`, and the dominant
frequency is nonzero (a zero dominant frequency leaves the row unassigned by
construction of `fftStep`). -/
theorem c4_phase_and_reversal (closes : List ℚ) (P i : ℕ) (r : FftRow)
    (h : fftFields closes P i = some r) :
    0 ≤ r.phaseRad ∧ r.phaseRad < 2 * Real.pi ∧
    r.phaseRad =
      pmod
        (Complex.arg (dft (detrend (windowAt closes P i))
            (dominantIdx (windowAt closes P i))) + 2 * Real.pi)
        (2 * Real.pi) ∧
    r.tReversal = (1 - r.phaseRad / (2 * Real.pi)) * ((r.dominantPeriod : ℚ) : ℝ) ∧
    r.dominantFreq ≠ 0 := by
  have hpi : (0 : ℝ) < 2 * Real.pi := by positivity
  unfold fftFields at h
  split_ifs at h
  unfold fftStep at h
  split_ifs at h with h1 h2
  obtain rfl : _ = r := Option.some.inj h
  push_neg at h2
  exact ⟨pmod_nonneg _ _ hpi, pmod_lt _ _ hpi, rfl, rfl, h2.2⟩

/-- Witness for C4: on the concrete four-bar window `[0, 1, 0, -1]` the
spectral row is assigned and satisfies the phase-range, reversal-formula and
nonzero-frequency properties. -/
theorem c4_phase_and_reversal_witness :
    ∃ r, fftFields c4Closes 4 3 = some r ∧
      0 ≤ r.phaseRad ∧ r.phaseRad < 2 * Real.pi ∧
      r.tReversal = (1 - r.phaseRad / (2 * Real.pi)) * ((r.dominantPeriod : ℚ) : ℝ) ∧
      r.dominantFreq ≠ 0 := by
  obtain ⟨r, hr⟩ :=
    fftFields_defined c4Closes 4 3 (by norm_num) (by norm_num) (by norm_num [c4Closes])
  have h := c4_phase_and_reversal c4Closes 4 3 r hr
  exact ⟨r, hr, h.1, h.2.1, h.2.2.2.1, h.2.2.2.2⟩

/-- Counterexample to C3 as stated: at warm-up bar 0 (vwap window 3) the
equilibrium column is not NaN-undefined — the NaN rolling volume sum fails the
`np.where` positivity test and the column falls back to the close price — and
deviation_z is likewise the defined number 0 (the NaN sigma fails the
`> epsilon` test).  Only sigma is actually undefined there. -/
theorem c3_counterexample :
    zPrime c3Bars 3 0 = 10 ∧ Erow c3Bars 3 0 = 0 ∧ sigmaCol c3Bars 3 0 = none := by
  have hs : sigmaCol c3Bars 3 0 = none := by
    unfold sigmaCol
    rw [if_neg (by omega)]
  refine ⟨?_, ?_, hs⟩
  · norm_num [zPrime, cumTPVol, cumVolume, rollSum, closeAt, c3Bars]
  · simp [Erow, hs]

/-- C3 amended: sigma is undefined for the first `W - 1` bars and the spectral
fields for the first `P - 1` bars; the equilibrium and deviation_z columns,
however, are defined at every bar — during warm-up the equilibrium equals the
close price and deviation_z equals 0.  For a full window, sigma is a defined
nonnegative real, and (for `P ≥ 4`) the spectral fields are assigned at every
row `i ≥ P - 1`. -/
theorem c3_amended_warmup (bars : List Bar) (W P i : ℕ) (hW : 2 ≤ W) (hP : 4 ≤ P) :
    (i + 1 < W →
      sigmaCol bars W i = none ∧ zPrime bars W i = closeAt bars i ∧
        Erow bars W i = 0) ∧
    (W ≤ i + 1 → ∃ s, sigmaCol bars W i = some s ∧ 0 ≤ s) ∧
    (i + 1 < P → fftFields (bars.map (·.close)) P i = none) ∧
    (P ≤ i + 1 → i < bars.length →
      ∃ r, fftFields (bars.map (·.close)) P i = some r) := by
  refine ⟨?_, ?_, ?_, ?_⟩
  · intro h
    have hs : sigmaCol bars W i = none := by
      unfold sigmaCol; rw [if_neg (by omega)]
    have hz : zPrime bars W i = closeAt bars i := by
      unfold zPrime cumTPVol cumVolume rollSum
      rw [if_neg (by omega)]
    exact ⟨hs, hz, by simp [Erow, hs]⟩
  · intro h
    refine ⟨Real.sqrt (sampleVar (windowAt (deviationCol bars W) W i)), ?_,
      Real.sqrt_nonneg _⟩
    unfold sigmaCol
    rw [if_pos ⟨hW, h⟩]
  · intro h
    unfold fftFields
    split_ifs with g1 g2
    · rfl
    · rfl
    · exact absurd (Or.inl h) g2
  · intro h1 h2
    exact fftFields_defined _ P i hP h1 (by simpa using h2)

/-- Witness for the amended C3 on the concrete constant series `c5Bars` with
`W = 2`, `P = 4`: warm-up bar 0 has no sigma but a defined equilibrium and a
zero deviation_z, bar 1 has a defined nonnegative sigma, and the spectral
fields are unassigned at bar 0. -/
theorem c3_amended_warmup_witness :
    (sigmaCol c5Bars 2 0 = none ∧ zPrime c5Bars 2 0 = closeAt c5Bars 0 ∧
      Erow c5Bars 2 0 = 0) ∧
    (∃ s, sigmaCol c5Bars 2 1 = some s ∧ 0 ≤ s) ∧
    fftFields (c5Bars.map (·.close)) 4 0 = none :=
  ⟨(c3_amended_warmup c5Bars 2 4 0 (by norm_num) (by norm_num)).1 (by norm_num),
    (c3_amended_warmup c5Bars 2 4 1 (by norm_num) (by norm_num)).2.1 (by norm_num),
    (c3_amended_warmup c5Bars 2 4 0 (by norm_num) (by norm_num)).2.2.1 (by norm_num)⟩

/-- C5: deviation_z is a defined (finite) real at every row, equal to
`deviation / sigma` when sigma is defined and exceeds the `1e-10` epsilon, and
to 0 in every other case (sigma at most epsilon — including the constant-price
sigma-zero case — or sigma undefined). -/
theorem c5_deviation_z_fallback (bars : List Bar) (W i : ℕ) :
    (∀ s, sigmaCol bars W i = some s →
      (((epsQ : ℚ) : ℝ) < s → Erow bars W i = ((deviation bars W i : ℚ) : ℝ) / s) ∧
        (s ≤ ((epsQ : ℚ) : ℝ) → Erow bars W i = 0)) ∧
    (sigmaCol bars W i = none → Erow bars W i = 0) := by
  constructor
  · intro s hsome
    constructor
    · intro hlt
      simp [Erow, hsome, hlt]
    · intro hle
      simp [Erow, hsome, not_lt.mpr hle]
  · intro hnone
    simp [Erow, hnone]

/-- Sigma on the constant-price series is the defined value 0 (variance of a
window of zero deviations). -/
theorem sigmaCol_c5Bars : sigmaCol c5Bars 2 1 = some 0 := by
  have hwin : windowAt (deviationCol c5Bars 2) 2 1 = [0, 0] := by
    have hr : List.range 2 = [0, 1] := rfl
    norm_num [windowAt, deviationCol, hr, deviation, zPrime, cumTPVol, cumVolume,
      rollSum, closeAt, tpVol, tp, c5Bars]
  have hvar : sampleVar (windowAt (deviationCol c5Bars 2) 2 1) = 0 := by
    rw [hwin]; norm_num [sampleVar]
  unfold sigmaCol
  rw [if_pos (by omega)]
  rw [hvar]
  norm_num

/-- Witness for C5 on the constant-price series: sigma is the defined value 0,
which is at most epsilon, so deviation_z falls back to 0. -/
theorem c5_deviation_z_fallback_witness :
    sigmaCol c5Bars 2 1 = some 0 ∧ Erow c5Bars 2 1 = 0 :=
  ⟨sigmaCol_c5Bars,
    ((c5_deviation_z_fallback c5Bars 2 1).1 0 sigmaCol_c5Bars).2
      (by norm_num [epsQ])⟩

/-- The output row at an in-range index is the loop body applied to that
row. -/
theorem sigOutAt_eq (rows : List SigRow) (sigmaThr revFrac : ℚ) (vwapP i : ℕ)
    (hi : i < rows.length) :
    sigOutAt rows sigmaThr revFrac vwapP i =
      match (rows.getD i dfltSigRow).E, (rows.getD i dfltSigRow).tReversal,
          (rows.getD i dfltSigRow).dominantPeriod with
      | some e, some t, some d =>
          perBarSignal e t d (volumeRatioCol (rows.map (·.volume)) vwapP i) sigmaThr
            revFrac
      | _, _, _ =>
          { dfltSigOut with
            volumeRatio := volumeRatioCol (rows.map (·.volume)) vwapP i } := by
  unfold sigOutAt signalsRolling
  rw [List.getD_eq_getElem?_getD, List.getElem?_map,
    List.getElem?_range (by simpa using hi)]
  rfl

/-- C2: for every row whose `E`, `T_reversal` and `Dominant_Period` are all
defined, the signal is BUY/Long exactly when the deviation threshold and the
timing threshold hold and `E < 0`, SELL/Short exactly when they hold and
`E > 0`, and HOLD with direction N/A in every other case (in particular when
`E = 0`). -/
theorem c2_signal_rule (rows : List SigRow) (sigmaThr revFrac : ℚ) (p i : ℕ)
    (e t d : ℚ) (hi : i < rows.length)
    (hE : (rows.getD i dfltSigRow).E = some e)
    (hT : (rows.getD i dfltSigRow).tReversal = some t)
    (hD : (rows.getD i dfltSigRow).dominantPeriod = some d) :
    (((sigOutAt rows sigmaThr revFrac p i).signal = "BUY" ∧
        (sigOutAt rows sigmaThr revFrac p i).direction = "Long") ↔
      (sigmaThr < |e| ∧ t < d * revFrac ∧ e < 0)) ∧
    (((sigOutAt rows sigmaThr revFrac p i).signal = "SELL" ∧
        (sigOutAt rows sigmaThr revFrac p i).direction = "Short") ↔
      (sigmaThr < |e| ∧ t < d * revFrac ∧ 0 < e)) ∧
    (((sigOutAt rows sigmaThr revFrac p i).signal = "HOLD" ∧
        (sigOutAt rows sigmaThr revFrac p i).direction = "N/A") ↔
      ¬(sigmaThr < |e| ∧ t < d * revFrac ∧ e ≠ 0)) := by
  have hout : sigOutAt rows sigmaThr revFrac p i =
      perBarSignal e t d (volumeRatioCol (rows.map (·.volume)) p i) sigmaThr
        revFrac := by
    rw [sigOutAt_eq rows sigmaThr revFrac p i hi, hE, hT, hD]
  rw [hout]
  unfold perBarSignal
  by_cases hc : sigmaThr < |e| ∧ t < d * revFrac
  · rcases lt_trichotomy e 0 with h3 | h3 | h3
    · simp only [if_pos hc, if_pos h3]
      refine ⟨iff_of_true (by simp) ⟨hc.1, hc.2, h3⟩, ?_, ?_⟩
      · exact iff_of_false (by simp) (fun hco => absurd hco.2.2 (lt_asymm h3))
      · exact iff_of_false (by simp) (fun hco => hco ⟨hc.1, hc.2, h3.ne⟩)
    · subst h3
      simp only [if_pos hc, if_neg (lt_irrefl (0 : ℚ))]
      exact ⟨iff_of_false (by simp) (fun hco => absurd hco.2.2 (lt_irrefl 0)),
        iff_of_false (by simp) (fun hco => absurd hco.2.2 (lt_irrefl 0)),
        iff_of_true (by simp) (fun hco => hco.2.2 rfl)⟩
    · simp only [if_pos hc, if_neg (lt_asymm h3), if_pos h3]
      refine ⟨iff_of_false (by simp) (fun hco => absurd hco.2.2 (lt_asymm h3)),
        iff_of_true (by simp) ⟨hc.1, hc.2, h3⟩, ?_⟩
      exact iff_of_false (by simp) (fun hco => hco ⟨hc.1, hc.2, h3.ne'⟩)
  · simp only [if_neg hc]
    exact ⟨iff_of_false (by simp) (fun hco => hc ⟨hco.1, hco.2.1⟩),
      iff_of_false (by simp) (fun hco => hc ⟨hco.1, hco.2.1⟩),
      iff_of_true (by simp) (fun hco => hc ⟨hco.1, hco.2.1⟩)⟩

/-- Witness for C2 at a concrete row (`E = -3`, threshold 2, reversal in 1 bar
against a threshold of 10 bars): the signal is BUY with direction Long. -/
theorem c2_signal_rule_witness :
    (sigOutAt c2Rows 2 (1 / 10) 1 0).signal = "BUY" ∧
      (sigOutAt c2Rows 2 (1 / 10) 1 0).direction = "Long" :=
  (c2_signal_rule c2Rows 2 (1 / 10) 1 0 (-3) 1 100 (by norm_num [c2Rows]) rfl rfl
      rfl).1.mpr (by norm_num)

/-- Counterexample to C7 as stated: at a row where the volume ratio is defined
(and equals 1) but `T_reversal` is NaN, the loop `continue`s before the
confidence assignment, so confidence stays at the initialized `N/A` instead of
being classified High/Low. -/
theorem c7_counterexample :
    (sigOutAt c7Rows 2 (1 / 10) 1 0).volumeRatio = some 1 ∧
      (sigOutAt c7Rows 2 (1 / 10) 1 0).confidence = "N/A" ∧
      (sigOutAt c7Rows 2 (1 / 10) 1 0).confidence ≠ "High" ∧
      (sigOutAt c7Rows 2 (1 / 10) 1 0).confidence ≠ "Low" := by
  have h := sigOutAt_eq c7Rows 2 (1 / 10) 1 0 (by norm_num [c7Rows])
  rw [show (c7Rows.getD 0 dfltSigRow).E = some 0 from rfl,
    show (c7Rows.getD 0 dfltSigRow).tReversal = none from rfl,
    show (c7Rows.getD 0 dfltSigRow).dominantPeriod = some 4 from rfl] at h
  rw [h]
  exact ⟨by norm_num [volumeRatioCol, rollSum, windowAt, c7Rows], rfl, by decide,
    by decide⟩

/-- C7 amended: confidence is classified from the volume ratio (`High` iff the
ratio exceeds 1, else `Low`) only on rows where `E`, `T_reversal` and
`Dominant_Period` are all defined; on those rows a NaN volume ratio leaves it
`N/A`, and on rows where any of the three indicator fields is NaN the row is
skipped and confidence stays `N/A` even when the volume ratio is defined. -/
theorem c7_amended_confidence (rows : List SigRow) (sigmaThr revFrac : ℚ)
    (p i : ℕ) (hi : i < rows.length) :
    (∀ e t d, (rows.getD i dfltSigRow).E = some e →
      (rows.getD i dfltSigRow).tReversal = some t →
      (rows.getD i dfltSigRow).dominantPeriod = some d →
      (∀ v, volumeRatioCol (rows.map (·.volume)) p i = some v →
        (sigOutAt rows sigmaThr revFrac p i).confidence =
          if 1 < v then "High" else "Low") ∧
      (volumeRatioCol (rows.map (·.volume)) p i = none →
        (sigOutAt rows sigmaThr revFrac p i).confidence = "N/A")) ∧
    (((rows.getD i dfltSigRow).E = none ∨ (rows.getD i dfltSigRow).tReversal = none ∨
        (rows.getD i dfltSigRow).dominantPeriod = none) →
      (sigOutAt rows sigmaThr revFrac p i).confidence = "N/A") := by
  have h := sigOutAt_eq rows sigmaThr revFrac p i hi
  constructor
  · intro e t d hE hT hD
    rw [hE, hT, hD] at h
    constructor
    · intro v hv
      rw [h]
      simp [perBarSignal, hv]
    · intro hv
      rw [h]
      simp [perBarSignal, hv]
  · intro hnone
    rcases hE : (rows.getD i dfltSigRow).E with _ | e <;>
      rcases hT : (rows.getD i dfltSigRow).tReversal with _ | t <;>
        rcases hD : (rows.getD i dfltSigRow).dominantPeriod with _ | d <;>
          rw [hE, hT, hD] at h <;> rw [h] <;> simp_all [dfltSigOut]

/-- Witness for the amended C7: with all indicator fields defined and a volume
ratio of exactly 1 (not above 1), confidence is classified `Low`. -/
theorem c7_amended_confidence_witness :
    (sigOutAt c7wRows 2 (1 / 10) 1 0).confidence = "Low" := by
  have h :=
    ((c7_amended_confidence c7wRows 2 (1 / 10) 1 0 (by norm_num [c7wRows])).1 0 1 4
        rfl rfl rfl).1 1 (by norm_num [volumeRatioCol, rollSum, windowAt, c7wRows])
  simpa using h

/-- Counterexample to C10 as stated: a vwap window of 0 (first configuration)
and an fft window of 0 (second configuration) both pass validation — the
source has no `window ≤ 0` check, a zero fft window satisfies the
power-of-two test (`0 & -1 == 0`), and the remaining checks hold — while the
claim requires validation to fail for any window length at most 0. -/
theorem c10_counterexample :
    validateConfig ⟨1500, 0, 256, 2, 1 / 10⟩ = [] ∧
      validateConfig ⟨1500, 100, 0, 2, 1 / 10⟩ = [] := by
  have hland : Int.land 0 (-1) = 0 := by
    show Int.land (Int.ofNat 0) (Int.negSucc 0) = 0
    show Int.ofNat (Nat.ldiff 0 0) = 0
    simp [Nat.ldiff, Nat.bitwise_zero_left]
  constructor
  · unfold validateConfig
    norm_num
    decide
  · unfold validateConfig
    norm_num [hland]

/-- C10 amended: validation does fail fatally for a non-positive sigma
threshold (the error list is nonempty, so startup raises before any indicator
computation), but window lengths at most 0 are not rejected (see the
counterexample). -/
theorem c10_amended_sigma (c : Config) (h : c.SIGMA_THRESHOLD ≤ 0) :
    ConfigError.sigmaNotPositive ∈ validateConfig c := by
  unfold validateConfig
  rw [if_pos h]
  simp

/-- Witness for the amended C10 at a concrete configuration with sigma
threshold 0. -/
theorem c10_amended_sigma_witness :
    ConfigError.sigmaNotPositive ∈ validateConfig ⟨1500, 100, 256, 0, 1 / 10⟩ :=
  c10_amended_sigma ⟨1500, 100, 256, 0, 1 / 10⟩ (by norm_num)

/-- A bar whose signal is HOLD is never skipped by the confidence filter, and
from a flat state it only appends the unchanged capital to the equity curve. -/
theorem stepBar_hold (p : SimParams) (st : SimState) (i : ℕ) (row : TradeRow)
    (hrow : row.signal = "HOLD") (hpos : st.position = none) :
    stepBar p st i row = { st with equity := st.equity ++ [st.capital] } := by
  have h1 : ¬(p.useConfidence ∧ row.confidence ≠ "High" ∧
      (row.signal = "BUY" ∨ row.signal = "SELL")) := by simp [hrow]
  unfold stepBar
  rw [if_neg h1, hpos]
  rw [if_neg (by simp [hrow]), if_neg (by simp [hrow])]

/-- The loop on an all-HOLD tail from a flat state leaves capital, position
and trades unchanged and appends one copy of the capital per bar. -/
theorem runBarsAux_hold (p : SimParams) (rows : List TradeRow) :
    ∀ (i : ℕ) (st : SimState), (∀ r ∈ rows, r.signal = "HOLD") →
      st.position = none →
      runBarsAux p i rows st =
        { st with equity := st.equity ++ List.replicate rows.length st.capital } := by
  induction rows with
  | nil =>
    intro i st h hp
    simp [runBarsAux]
  | cons r rest ih =>
    intro i st h hp
    have hr : r.signal = "HOLD" := h r (List.mem_cons_self r rest)
    rw [show runBarsAux p i (r :: rest) st =
        runBarsAux p (i + 1) rest (stepBar p st i r) from rfl]
    rw [stepBar_hold p st i r hr hp]
    rw [ih (i + 1) { st with equity := st.equity ++ [st.capital] }
      (fun x hx => h x (List.mem_cons_of_mem r hx)) hp]
    simp [List.replicate_succ]

/-- C8: simulating a series whose signal is HOLD at every bar records no
trades and produces an equity curve every entry of which is the initial
capital. -/
theorem c8_all_hold_flat (rows : List TradeRow) (p : SimParams)
    (h : ∀ r ∈ rows, r.signal = "HOLD") :
    (simulateTrades rows p).trades = [] ∧
    completedTrades (simulateTrades rows p) = [] ∧
    ∀ x ∈ (simulateTrades rows p).equity, x = p.initialCapital := by
  have hsim : simulateTrades rows p =
      { initState p with
        equity := (initState p).equity ++
          List.replicate rows.length (initState p).capital } := by
    unfold simulateTrades
    rw [runBarsAux_hold p rows 0 (initState p) h rfl]
    rfl
  rw [hsim]
  refine ⟨rfl, rfl, ?_⟩
  intro x hx
  simp only [initState, List.mem_append, List.mem_singleton,
    List.mem_replicate] at hx
  rcases hx with hx | hx
  · exact hx
  · exact hx.2

/-- Witness for C8 on a concrete two-bar all-HOLD series. -/
theorem c8_all_hold_flat_witness :
    (simulateTrades c8Rows simParams).trades = [] ∧
    completedTrades (simulateTrades c8Rows simParams) = [] ∧
    ∀ x ∈ (simulateTrades c8Rows simParams).equity, x = simParams.initialCapital :=
  c8_all_hold_flat c8Rows simParams (by decide)

/-- Counterexample to C6 as stated: with the confidence filter enabled, a long
opened at bar 0 (price 100) sees bar 1 close at 90 — well past the 2% stop
loss — but because bar 1 carries a Low-confidence SELL signal, the filter
`continue`s the whole iteration and no exit rule is evaluated: the position is
still open at the end and is force-closed at bar 2 with reason `End of Data`
instead of closing at bar 1 with reason `Stop Loss`. -/
theorem c6_counterexample :
    (simulateTrades c6Rows simParams).trades.length = 1 ∧
    ((simulateTrades c6Rows simParams).trades.headD dfltTrade).entryBar = 0 ∧
    (c6Rows.getD 1 dfltTradeRow).close ≤
      ((simulateTrades c6Rows simParams).trades.headD dfltTrade).entryPrice *
        (1 - simParams.stopLossPct) ∧
    ((simulateTrades c6Rows simParams).trades.headD dfltTrade).exitInfo.map
      (·.exitReason) = some "End of Data" ∧
    ((simulateTrades c6Rows simParams).trades.headD dfltTrade).exitInfo.map
      (·.exitBar) = some 2 := by
  have h0 : stepBar simParams (initState simParams) 0 ⟨"BUY", 100, "High", 0⟩ =
      ⟨981 / 2, some "LONG", 100, 0, 95,
        [⟨0, 100, "LONG", 95, 19 / 2, "High", 0, none⟩], [10000, 19981 / 2]⟩ := by
    norm_num [stepBar, initState, simParams]
  have h1 : stepBar simParams
      ⟨981 / 2, some "LONG", 100, 0, 95,
        [⟨0, 100, "LONG", 95, 19 / 2, "High", 0, none⟩], [10000, 19981 / 2]⟩
      1 ⟨"SELL", 90, "Low", 0⟩ =
      ⟨981 / 2, some "LONG", 100, 0, 95,
        [⟨0, 100, "LONG", 95, 19 / 2, "High", 0, none⟩],
        [10000, 19981 / 2, 981 / 2]⟩ := by
    simp [stepBar, simParams]
  have h2 : stepBar simParams
      ⟨981 / 2, some "LONG", 100, 0, 95,
        [⟨0, 100, "LONG", 95, 19 / 2, "High", 0, none⟩],
        [10000, 19981 / 2, 981 / 2]⟩
      2 ⟨"HOLD", 100, "High", 0⟩ =
      ⟨981 / 2, some "LONG", 100, 0, 95,
        [⟨0, 100, "LONG", 95, 19 / 2, "High", 0, none⟩],
        [10000, 19981 / 2, 981 / 2, 19981 / 2]⟩ := by
    norm_num [stepBar, exitReasonLong, simParams,
      (by decide : ¬(("HOLD" : String) = "SELL"))]
  have hrun : runBarsAux simParams 0 c6Rows (initState simParams) =
      ⟨981 / 2, some "LONG", 100, 0, 95,
        [⟨0, 100, "LONG", 95, 19 / 2, "High", 0, none⟩],
        [10000, 19981 / 2, 981 / 2, 19981 / 2]⟩ := by
    show runBarsAux simParams 0
      [⟨"BUY", 100, "High", 0⟩, ⟨"SELL", 90, "Low", 0⟩, ⟨"HOLD", 100, "High", 0⟩]
      (initState simParams) = _
    simp only [runBarsAux]
    rw [h0, h1, h2]
  have hsim : simulateTrades c6Rows simParams =
      ⟨9981, some "LONG", 100, 0, 95,
        [⟨0, 100, "LONG", 95, 19 / 2, "High", 0,
          some ⟨2, 100, 19 / 2, "End of Data", 2, -19, 0, -19, 19, 0⟩⟩],
        [10000, 19981 / 2, 981 / 2, 19981 / 2]⟩ := by
    unfold simulateTrades
    rw [hrun]
    norm_num [forceClose, closeLastTrade, lastEntryFee, c6Rows, simParams]
  rw [hsim]
  refine ⟨rfl, rfl, by norm_num [c6Rows, simParams], rfl, rfl⟩

/-- The LONG exit test fires exactly on the claimed four conditions. -/
theorem exitReasonLong_fires_iff (p : SimParams) (st : SimState) (i : ℕ)
    (row : TradeRow) :
    exitReasonLong p st i row ≠ none ↔
      (row.close ≤ st.entryPrice * (1 - p.stopLossPct) ∨
        st.entryPrice * (1 + p.takeProfitPct) ≤ row.close ∨
        row.signal = "SELL" ∨ 100 < i - st.entryBar) := by
  unfold exitReasonLong
  split_ifs with a b c d <;> simp_all

/-- The SHORT exit test fires exactly on the claimed four conditions. -/
theorem exitReasonShort_fires_iff (p : SimParams) (st : SimState) (i : ℕ)
    (row : TradeRow) :
    exitReasonShort p st i row ≠ none ↔
      (st.entryPrice * (1 + p.stopLossPct) ≤ row.close ∨
        row.close ≤ st.entryPrice * (1 - p.takeProfitPct) ∨
        row.signal = "BUY" ∨ 100 < i - st.entryBar) := by
  unfold exitReasonShort
  split_ifs with a b c d <;> simp_all

/-- On a non-skipped bar, an open LONG position closes exactly when its exit
test fires. -/
theorem stepBar_long_closes_iff (p : SimParams) (st : SimState) (i : ℕ)
    (row : TradeRow)
    (hnf : ¬(p.useConfidence ∧ row.confidence ≠ "High" ∧
      (row.signal = "BUY" ∨ row.signal = "SELL")))
    (hpos : st.position = some "LONG") :
    ((stepBar p st i row).position = none ↔ exitReasonLong p st i row ≠ none) := by
  unfold stepBar
  rw [if_neg hnf, hpos]
  cases hr : exitReasonLong p st i row with
  | none => simp [hr, hpos]
  | some reason => simp [hr]

/-- On a non-skipped bar, an open SHORT position closes exactly when its exit
test fires. -/
theorem stepBar_short_closes_iff (p : SimParams) (st : SimState) (i : ℕ)
    (row : TradeRow)
    (hnf : ¬(p.useConfidence ∧ row.confidence ≠ "High" ∧
      (row.signal = "BUY" ∨ row.signal = "SELL")))
    (hpos : st.position = some "SHORT") :
    ((stepBar p st i row).position = none ↔ exitReasonShort p st i row ≠ none) := by
  unfold stepBar
  rw [if_neg hnf, hpos]
  cases hr : exitReasonShort p st i row with
  | none => simp [hr, hpos]
  | some reason => simp [hr]

/-- C6 amended: with the confidence filter enabled, a BUY/SELL bar whose
confidence is not High is skipped wholesale — the state is unchanged except
for an equity append of the raw capital, so no entry and also no exit
evaluation happens on that bar.  On every other bar, an open position closes
exactly when one of its four exit conditions (stop loss, take profit, signal
reversal, max holding period) holds. -/
theorem c6_amended_filter_skips_bar (p : SimParams) (st : SimState) (i : ℕ)
    (row : TradeRow) :
    ((p.useConfidence ∧ row.confidence ≠ "High" ∧
        (row.signal = "BUY" ∨ row.signal = "SELL")) →
      stepBar p st i row = { st with equity := st.equity ++ [st.capital] }) ∧
    (¬(p.useConfidence ∧ row.confidence ≠ "High" ∧
        (row.signal = "BUY" ∨ row.signal = "SELL")) →
      (st.position = some "LONG" →
        ((stepBar p st i row).position = none ↔
          (row.close ≤ st.entryPrice * (1 - p.stopLossPct) ∨
            st.entryPrice * (1 + p.takeProfitPct) ≤ row.close ∨
            row.signal = "SELL" ∨ 100 < i - st.entryBar))) ∧
      (st.position = some "SHORT" →
        ((stepBar p st i row).position = none ↔
          (st.entryPrice * (1 + p.stopLossPct) ≤ row.close ∨
            row.close ≤ st.entryPrice * (1 - p.takeProfitPct) ∨
            row.signal = "BUY" ∨ 100 < i - st.entryBar)))) := by
  refine ⟨fun hf => ?_, fun hnf => ⟨fun hpos => ?_, fun hpos => ?_⟩⟩
  · unfold stepBar
    rw [if_pos hf]
  · exact (stepBar_long_closes_iff p st i row hnf hpos).trans
      (exitReasonLong_fires_iff p st i row)
  · exact (stepBar_short_closes_iff p st i row hnf hpos).trans
      (exitReasonShort_fires_iff p st i row)

/-- Witness for the amended C6 at concrete inputs: a Low-confidence SELL bar
is skipped wholesale while a long is open (first conjunct), and on a HOLD bar
the same open long does close because the stop-loss condition holds (second
conjunct). -/
theorem c6_amended_filter_skips_bar_witness :
    stepBar simParams c6State 1 ⟨"SELL", 90, "Low", 0⟩ =
      { c6State with equity := c6State.equity ++ [c6State.capital] } ∧
    (stepBar simParams c6State 1 ⟨"HOLD", 90, "High", 0⟩).position = none :=
  ⟨(c6_amended_filter_skips_bar simParams c6State 1 ⟨"SELL", 90, "Low", 0⟩).1
      (by refine ⟨by norm_num [simParams], by decide, Or.inr (by decide)⟩),
    (((c6_amended_filter_skips_bar simParams c6State 1 ⟨"HOLD", 90, "High", 0⟩).2
        (by simp [simParams])).1 rfl).mpr
      (Or.inl (by norm_num [c6State, simParams]))⟩

/-- C9 amended: for a simulation holding at least one completed trade, the
reported profit factor is infinite exactly when the net P&L of the losing trades
sums to zero (no losing trades, or only exactly-break-even ones, which the
source classifies as losing), and otherwise equals the absolute ratio of the
winning sum to the losing sum. -/
theorem c9_profit_factor (rows : List TradeRow) (p : SimParams)
    (h : completedTrades (simulateTrades rows p) ≠ []) :
    (profitFactor (simulateTrades rows p) = none ↔
      ((losingTrades (simulateTrades rows p)).map netPnlOf).sum = 0) ∧
    (∀ q, profitFactor (simulateTrades rows p) = some q →
      q = |((winningTrades (simulateTrades rows p)).map netPnlOf).sum /
        ((losingTrades (simulateTrades rows p)).map netPnlOf).sum|) := by
  constructor
  · unfold profitFactor
    split_ifs with hc
    · simp only [reduceCtorEq, false_iff]
      exact hc.2
    · simp only [true_iff]
      by_cases hL : losingTrades (simulateTrades rows p) = []
      · simp [hL]
      · by_contra hs
        exact hc ⟨hL, hs⟩
  · intro q hq
    unfold profitFactor at hq
    split_ifs at hq
    exact (Option.some.inj hq).symm

/-- Counterexample to C9 as stated: a single break-even round trip (zero fee,
entry and exit both at 100) yields one completed trade with net P&L exactly 0,
which the source counts as a losing trade; the losing sum is 0, so the
filter `losing_trades and sum != 0` fails and the profit factor is reported as
infinity even though a losing trade exists and there is no winning trade. -/
theorem c9_counterexample :
    profitFactor (simulateTrades c9Rows c9Params) = none ∧
    losingTrades (simulateTrades c9Rows c9Params) ≠ [] ∧
    winningTrades (simulateTrades c9Rows c9Params) = [] := by
  have h0 : stepBar c9Params (initState c9Params) 0 ⟨"BUY", 100, "High", -3⟩ =
      ⟨500, some "LONG", 100, 0, 95,
        [⟨0, 100, "LONG", 95, 0, "High", -3, none⟩], [10000, 10000]⟩ := by
    norm_num [stepBar, initState, c9Params]
  have h1 : stepBar c9Params
      ⟨500, some "LONG", 100, 0, 95,
        [⟨0, 100, "LONG", 95, 0, "High", -3, none⟩], [10000, 10000]⟩
      1 ⟨"SELL", 100, "High", 3⟩ =
      ⟨10000, none, 100, 0, 0,
        [⟨0, 100, "LONG", 95, 0, "High", -3,
          some ⟨1, 100, 0, "Signal Reversal", 1, 0, 0, 0, 0, 3⟩⟩],
        [10000, 10000, 10000]⟩ := by
    norm_num [stepBar, exitReasonLong, closeLastTrade, lastEntryFee, c9Params]
  have hsim : simulateTrades c9Rows c9Params =
      ⟨10000, none, 100, 0, 0,
        [⟨0, 100, "LONG", 95, 0, "High", -3,
          some ⟨1, 100, 0, "Signal Reversal", 1, 0, 0, 0, 0, 3⟩⟩],
        [10000, 10000, 10000]⟩ := by
    unfold simulateTrades
    show forceClose c9Params c9Rows (runBarsAux c9Params 0
      [⟨"BUY", 100, "High", -3⟩, ⟨"SELL", 100, "High", 3⟩] (initState c9Params)) = _
    simp only [runBarsAux]
    rw [h0, h1]
    rfl
  rw [hsim]
  refine ⟨?_, ?_, ?_⟩
  · norm_num [profitFactor, losingTrades, winningTrades, completedTrades, netPnlOf]
  · norm_num [losingTrades, completedTrades, netPnlOf]
  · norm_num [winningTrades, completedTrades, netPnlOf]

/-- Witness for the amended C9: a single genuinely losing round trip (exit at
99 after entry at 100, zero fee) has a nonzero losing sum, so the profit
factor is finite. -/
theorem c9_profit_factor_witness :
    completedTrades (simulateTrades c9wRows c9Params) ≠ [] ∧
    profitFactor (simulateTrades c9wRows c9Params) ≠ none := by
  have h0 : stepBar c9Params (initState c9Params) 0 ⟨"BUY", 100, "High", -3⟩ =
      ⟨500, some "LONG", 100, 0, 95,
        [⟨0, 100, "LONG", 95, 0, "High", -3, none⟩], [10000, 10000]⟩ := by
    norm_num [stepBar, initState, c9Params]
  have h1 : stepBar c9Params
      ⟨500, some "LONG", 100, 0, 95,
        [⟨0, 100, "LONG", 95, 0, "High", -3, none⟩], [10000, 10000]⟩
      1 ⟨"SELL", 99, "High", 3⟩ =
      ⟨9905, none, 100, 0, 0,
        [⟨0, 100, "LONG", 95, 0, "High", -3,
          some ⟨1, 99, 0, "Signal Reversal", 1, -95, -1, -95, 0, 3⟩⟩],
        [10000, 10000, 9905]⟩ := by
    norm_num [stepBar, exitReasonLong, closeLastTrade, lastEntryFee, c9Params]
  have hsim : simulateTrades c9wRows c9Params =
      ⟨9905, none, 100, 0, 0,
        [⟨0, 100, "LONG", 95, 0, "High", -3,
          some ⟨1, 99, 0, "Signal Reversal", 1, -95, -1, -95, 0, 3⟩⟩],
        [10000, 10000, 9905]⟩ := by
    unfold simulateTrades
    show forceClose c9Params c9wRows (runBarsAux c9Params 0
      [⟨"BUY", 100, "High", -3⟩, ⟨"SELL", 99, "High", 3⟩] (initState c9Params)) = _
    simp only [runBarsAux]
    rw [h0, h1]
    rfl
  have hne : completedTrades (simulateTrades c9wRows c9Params) ≠ [] := by
    rw [hsim]
    simp [completedTrades]
  refine ⟨hne, fun hnone => ?_⟩
  have hsum := (c9_profit_factor c9wRows c9Params hne).1.mp hnone
  rw [hsim] at hsum
  norm_num [losingTrades, completedTrades, netPnlOf] at hsum

end QuantOracle
